import Mathlib

/-!
Shallow embedding of the trading core of skomax/market-observer
(src/main.py, src/risk_manager.py, src/trading_manager.py).

Numeric model: Python/pandas floats are embedded as exact rationals
extended with the special values NaN, +inf and -inf (`PyFloat`), with the
IEEE-754 propagation rules for the arithmetic the source performs
(NaN propagates; x/0 is signed infinity for x ≠ 0 and NaN for 0/0;
finite/inf = 0; comparisons against NaN are false).  Rounding error is not
modelled: every claim below is about coarse inequalities and control flow,
never about the last bits of a float.
-/

/-- A pandas/NumPy double: an exact rational, or one of the special
values NaN, +inf, -inf. -/
inductive PyFloat where
  | nan : PyFloat
  | v : ℚ → PyFloat
  | inf : PyFloat
  | ninf : PyFloat
deriving DecidableEq, Repr

namespace PyFloat

/-- IEEE negation. -/
def neg : PyFloat → PyFloat
  | nan => nan
  | v a => v (-a)
  | inf => ninf
  | ninf => inf

/-- IEEE addition (NaN propagates, inf + (-inf) = NaN). -/
def add : PyFloat → PyFloat → PyFloat
  | nan, _ => nan
  | _, nan => nan
  | v a, v b => v (a + b)
  | inf, ninf => nan
  | ninf, inf => nan
  | inf, _ => inf
  | _, inf => inf
  | ninf, _ => ninf
  | _, ninf => ninf

/-- IEEE subtraction. -/
def sub (a b : PyFloat) : PyFloat := add a (neg b)

/-- IEEE multiplication (0 * inf = NaN). -/
def mul : PyFloat → PyFloat → PyFloat
  | nan, _ => nan
  | _, nan => nan
  | v a, v b => v (a * b)
  | inf, v b => if 0 < b then inf else if b < 0 then ninf else nan
  | v a, inf => if 0 < a then inf else if a < 0 then ninf else nan
  | ninf, v b => if 0 < b then ninf else if b < 0 then inf else nan
  | v a, ninf => if 0 < a then ninf else if a < 0 then inf else nan
  | inf, inf => inf
  | inf, ninf => ninf
  | ninf, inf => ninf
  | ninf, ninf => inf

/-- NumPy division as pandas performs it elementwise: x/0 is a signed
infinity for x ≠ 0 and NaN for 0/0; finite/±inf collapses to 0. -/
def div : PyFloat → PyFloat → PyFloat
  | nan, _ => nan
  | _, nan => nan
  | v a, v b =>
      if b = 0 then (if 0 < a then inf else if a < 0 then ninf else nan)
      else v (a / b)
  | v _, inf => v 0
  | v _, ninf => v 0
  | inf, v b => if b < 0 then ninf else inf
  | ninf, v b => if b < 0 then inf else ninf
  | inf, inf => nan
  | inf, ninf => nan
  | ninf, inf => nan
  | ninf, ninf => nan

/-- IEEE strict less-than; any comparison involving NaN is false. -/
def lt : PyFloat → PyFloat → Bool
  | v a, v b => a < b
  | v _, inf => true
  | ninf, v _ => true
  | ninf, inf => true
  | _, _ => false

theorem lt_asymm_false {a b : PyFloat} (h : lt a b = true) : lt b a = false := by
  cases a <;> cases b <;> simp_all [lt]
  linarith

end PyFloat

/-!  pandas series primitives, over lists of `PyFloat` (NaN = missing). -/

/-- Series.diff() on a float column: first entry NaN, then adjacent
differences. -/
def diffQ : List ℚ → List PyFloat
  | [] => []
  | x :: xs => .nan :: List.zipWith (fun b a => .v (b - a)) xs (x :: xs)

/-- Sum of a series, NaN-propagating (fold of IEEE addition). -/
def sumPF (l : List PyFloat) : PyFloat := l.foldl PyFloat.add (.v 0)

/-- Mean of a (window) series: NaN-propagating sum divided by the count. -/
def meanPF (l : List PyFloat) : PyFloat := PyFloat.div (sumPF l) (.v l.length)

/-- Series.rolling(window=n).mean() with the default min_periods = n:
positions with fewer than n observations are NaN; a window containing a
NaN yields NaN. -/
def rollingMean (n : ℕ) (s : List PyFloat) : List PyFloat :=
  (List.range s.length).map (fun i =>
    if i + 1 < n then .nan
    else meanPF ((s.take (i + 1)).drop (i + 1 - n)))

/-- Sample variance (ddof = 1), as pandas Series.rolling(...).std() squares. -/
def sampleVarQ (l : List ℚ) : ℚ :=
  let n : ℚ := l.length
  let μ : ℚ := l.sum / n
  ((l.map (fun x => (x - μ) ^ 2)).sum) / (n - 1)

/-- Series.rolling(window=n).std(): NaN until n observations, then the
sample standard deviation.  Square roots of rationals are irrational in
general, so the float square root is a parameter of the embedding; no
claim below depends on its values. -/
def rollingStd (sqrtQ : ℚ → ℚ) (n : ℕ) (s : List ℚ) : List PyFloat :=
  (List.range s.length).map (fun i =>
    if i + 1 < n then .nan
    else .v (sqrtQ (sampleVarQ ((s.take (i + 1)).drop (i + 1 - n)))))

/-- Series.ewm(span, adjust=False).mean() tail: y_t = (1-α)y_(t-1) + α x_t. -/
def ewmAux (α : ℚ) : ℚ → List ℚ → List ℚ
  | _, [] => []
  | prev, x :: xs =>
      let y := (1 - α) * prev + α * x
      y :: ewmAux α y xs

/-- Series.ewm(span=span, adjust=False).mean(), seeded by the first value,
with weight α = 2/(span+1). -/
def ewmQ (span : ℕ) : List ℚ → List ℚ
  | [] => []
  | x :: xs => x :: ewmAux (2 / ((span : ℚ) + 1)) x xs

/-- First non-NaN value of a series (NaN when none exists). -/
def nextVal : List PyFloat → PyFloat
  | [] => .nan
  | .nan :: xs => nextVal xs
  | x :: _ => x

/-- DataFrame.fillna(method='bfill') on one column: every NaN is replaced
by the next non-NaN value below it; trailing NaNs stay NaN. -/
def bfill : List PyFloat → List PyFloat
  | [] => []
  | .nan :: xs => nextVal xs :: bfill xs
  | x :: xs => x :: bfill xs

/-!  IndicatorEngine: TradingBot.calculate_scalping_indicators
(src/main.py lines 851-921). -/

/-- TradingBot.indicator_settings (src/main.py lines 54-66). -/
structure IndicatorSettings where
  ema_short : ℕ
  ema_long : ℕ
  rsi_period : ℕ
  rsi_overbought : ℚ
  rsi_oversold : ℚ
  macd_fast : ℕ
  macd_slow : ℕ
  macd_signal : ℕ
  bb_period : ℕ
  bb_std : ℚ
  momentum_period : ℕ
deriving DecidableEq, Repr

/-- The environment defaults hard-coded in TradingBot.__init__. -/
def indicatorDefaults : IndicatorSettings :=
  { ema_short := 3, ema_long := 7, rsi_period := 5, rsi_overbought := 70,
    rsi_oversold := 30, macd_fast := 8, macd_slow := 17, macd_signal := 7,
    bb_period := 10, bb_std := 2, momentum_period := 3 }

/-- gain = delta.where(delta > 0, 0): positive deltas, 0 elsewhere
(the leading NaN of diff compares false against 0 and becomes 0). -/
def gain_series (closes : List ℚ) : List PyFloat :=
  (diffQ closes).map (fun d => if PyFloat.lt (.v 0) d then d else .v 0)

/-- loss = -delta.where(delta < 0, 0): negated negative deltas. -/
def loss_series (closes : List ℚ) : List PyFloat :=
  ((diffQ closes).map (fun d => if PyFloat.lt d (.v 0) then d else .v 0)).map PyFloat.neg

/-- Rolling average gain over the RSI period. -/
def avg_gain (period : ℕ) (closes : List ℚ) : List PyFloat :=
  rollingMean period (gain_series closes)

/-- Rolling average loss over the RSI period. -/
def avg_loss (period : ℕ) (closes : List ℚ) : List PyFloat :=
  rollingMean period (loss_series closes)

/-- One RSI cell: RSI = 100 - 100/(1 + gain/loss), on IEEE floats. -/
def rsiCell (g l : PyFloat) : PyFloat :=
  PyFloat.sub (.v 100) (PyFloat.div (.v 100) (PyFloat.add (.v 1) (PyFloat.div g l)))

/-- The raw RSI column (before the final fillna(bfill)). -/
def rsi_column (period : ℕ) (closes : List ℚ) : List PyFloat :=
  List.zipWith rsiCell (avg_gain period closes) (avg_loss period closes)

/-- Momentum = close - close.shift(momentum_period). -/
def momentum_column (p : ℕ) (closes : List ℚ) : List PyFloat :=
  (List.range closes.length).map (fun i =>
    if i < p then .nan else .v (closes.getD i 0 - closes.getD (i - p) 0))

/-- The DataFrame returned by calculate_scalping_indicators: the close
column plus the nine indicator columns the method assigns. -/
structure Frame where
  close : List PyFloat
  EMA5 : List PyFloat
  EMA13 : List PyFloat
  RSI : List PyFloat
  MACD : List PyFloat
  Signal_Line : List PyFloat
  BB_middle : List PyFloat
  BB_upper : List PyFloat
  BB_lower : List PyFloat
  Momentum : List PyFloat
deriving DecidableEq, Repr

/-- TradingBot.calculate_scalping_indicators (src/main.py 851-921): EMA via
ewm, RSI via rolling gain/loss, MACD and its signal line via ewm, Bollinger
bands via rolling mean/std, momentum via shift; finally every column is
passed through fillna(method='bfill').  `sqrtQ` stands for the float square
root used inside rolling std (see `rollingStd`). -/
def calculate_scalping_indicators (sqrtQ : ℚ → ℚ) (s : IndicatorSettings)
    (closes : List ℚ) : Frame :=
  let ema5 := ewmQ s.ema_short closes
  let ema13 := ewmQ s.ema_long closes
  let exp1 := ewmQ s.macd_fast closes
  let exp2 := ewmQ s.macd_slow closes
  let macd := List.zipWith (fun a b => a - b) exp1 exp2
  let signal := ewmQ s.macd_signal macd
  let bbMid := rollingMean s.bb_period (closes.map .v)
  let bbStd := rollingStd sqrtQ s.bb_period closes
  let bbUpper := List.zipWith (fun m sd => PyFloat.add m (PyFloat.mul sd (.v s.bb_std))) bbMid bbStd
  let bbLower := List.zipWith (fun m sd => PyFloat.sub m (PyFloat.mul sd (.v s.bb_std))) bbMid bbStd
  { close := bfill (closes.map .v),
    EMA5 := bfill (ema5.map .v),
    EMA13 := bfill (ema13.map .v),
    RSI := bfill (rsi_column s.rsi_period closes),
    MACD := bfill (macd.map .v),
    Signal_Line := bfill (signal.map .v),
    BB_middle := bfill bbMid,
    BB_upper := bfill bbUpper,
    BB_lower := bfill bbLower,
    Momentum := bfill (momentum_column s.momentum_period closes) }

/-- One row of the frame (df.iloc[k]), restricted to the columns the
signal/exit logic reads. -/
structure Row where
  close : PyFloat
  EMA5 : PyFloat
  EMA13 : PyFloat
  RSI : PyFloat
  MACD : PyFloat
  Signal_Line : PyFloat
  BB_middle : PyFloat
  BB_upper : PyFloat
  BB_lower : PyFloat
  Momentum : PyFloat
deriving DecidableEq, Repr

/-- df.iloc[-1]: the last row of a frame (fields default to NaN on an
empty frame; every caller guards with df.empty first). -/
def frame_last_row (f : Frame) : Row :=
  { close := (f.close.getLast?).getD .nan,
    EMA5 := (f.EMA5.getLast?).getD .nan,
    EMA13 := (f.EMA13.getLast?).getD .nan,
    RSI := (f.RSI.getLast?).getD .nan,
    MACD := (f.MACD.getLast?).getD .nan,
    Signal_Line := (f.Signal_Line.getLast?).getD .nan,
    BB_middle := (f.BB_middle.getLast?).getD .nan,
    BB_upper := (f.BB_upper.getLast?).getD .nan,
    BB_lower := (f.BB_lower.getLast?).getD .nan,
    Momentum := (f.Momentum.getLast?).getD .nan }

/-!  SignalGenerator: TradingBot.calculate_signal_strength (src/main.py
640-661) and TradingBot.analyze_scalping_signals (src/main.py 923-1030). -/

/-- Order side, the source's signal/trade 'type' strings 'BUY' / 'SELL'. -/
inductive Side where
  | BUY : Side
  | SELL : Side
deriving DecidableEq, Repr

/-- An entry of TradingBot.active_trades (the dict stored by
process_signals; timestamps are seconds). -/
structure Trade where
  side : Side
  entry_price : ℚ
  quantity : ℚ
  stop_loss : ℚ
  take_profit : ℚ
  timestamp : ℚ
  signal_strength : ℚ
deriving DecidableEq, Repr

/-- A signal dict produced by analyze_scalping_signals. -/
structure Signal where
  side : Side
  symbol : String
  price : PyFloat
  signal_strength : ℚ
  stop_loss : PyFloat
  take_profit : PyFloat
deriving DecidableEq, Repr

/-- TradingBot.calculate_signal_strength (src/main.py 640-661): six
weighted boolean sub-conditions, normalized to the weight total and scaled
to percent. -/
def calculate_signal_strength (row : Row) : ℚ :=
  let conditions : List Bool :=
    [PyFloat.lt row.EMA5 row.close,
     PyFloat.lt row.EMA13 row.EMA5,
     PyFloat.lt (.v 35) row.RSI && PyFloat.lt row.RSI (.v 65),
     PyFloat.lt row.Signal_Line row.MACD,
     PyFloat.lt row.BB_middle row.close,
     PyFloat.lt (.v 0) row.Momentum]
  let weights : List ℚ := [12/10, 12/10, 1, 11/10, 1, 1]
  let weighted_sum := (List.zipWith (fun c w => if c then w else 0) conditions weights).sum
  (weighted_sum / weights.sum) * 100

/-- The long_conditions list of analyze_scalping_signals (src/main.py
960-968), conjoined. -/
def long_conditions (minStrength : ℚ) (r : Row) : Bool :=
  PyFloat.lt r.EMA13 r.EMA5 && PyFloat.lt r.RSI (.v 65) &&
  PyFloat.lt (.v 30) r.RSI && PyFloat.lt r.Signal_Line r.MACD &&
  PyFloat.lt r.BB_middle r.close && PyFloat.lt (.v 0) r.Momentum &&
  decide (minStrength ≤ calculate_signal_strength r)

/-- The short_conditions list of analyze_scalping_signals (src/main.py
971-979), conjoined. -/
def short_conditions (minStrength : ℚ) (r : Row) : Bool :=
  PyFloat.lt r.EMA5 r.EMA13 && PyFloat.lt (.v 35) r.RSI &&
  PyFloat.lt r.RSI (.v 65) && PyFloat.lt r.MACD r.Signal_Line &&
  PyFloat.lt r.close r.BB_middle && PyFloat.lt r.Momentum (.v 0) &&
  decide (minStrength ≤ calculate_signal_strength r)

/-- TradingBot.analyze_scalping_signals (src/main.py 923-1030): empty
frames and symbols with an open trade yield no signal; otherwise the LONG
condition list, then the SHORT condition list, is checked on the last row;
the first list that is all true emits one signal. -/
def analyze_scalping_signals (minStrength : ℚ) (active : List (String × Trade))
    (f : Frame) (symbol : String) : List Signal :=
  if f.close.isEmpty then []
  else
    let r := frame_last_row f
    if active.any (fun p => p.1 == symbol) then []
    else if long_conditions minStrength r then
      [{ side := .BUY, symbol := symbol, price := r.close,
         signal_strength := calculate_signal_strength r,
         stop_loss := PyFloat.mul r.close (.v (993/1000)),
         take_profit := PyFloat.mul r.close (.v (1018/1000)) }]
    else if short_conditions minStrength r then
      [{ side := .SELL, symbol := symbol, price := r.close,
         signal_strength := calculate_signal_strength r,
         stop_loss := PyFloat.mul r.close (.v (1007/1000)),
         take_profit := PyFloat.mul r.close (.v (982/1000)) }]
    else []

/-!  PositionLifecycle: the exit decision of TradingBot.manage_active_trades
(src/main.py 723-831) for one open trade. -/

/-- The exit reason strings logged by manage_active_trades. -/
inductive ExitReason where
  | stopLoss : ExitReason
  | takeProfit : ExitReason
  | maxTime : ExitReason
  | technicalExit : ExitReason
deriving DecidableEq, Repr

/-- The exit-condition cascade of TradingBot.manage_active_trades for one
trade: if current_price <= stop_loss (tested this way for BOTH sides),
then elif current_price >= take_profit, then elif time in trade exceeds
max_position_time minutes, then (only when the symbol's price cache is
nonempty, given here as the last indicator row) the technical-exit check
for BUY trades.  Returns the reason of the first matching condition. -/
def manage_active_trades_exit (max_position_time rsi_overbought : ℚ)
    (now current_price : ℚ) (lastRow : Option Row) (trade : Trade) :
    Option ExitReason :=
  if current_price ≤ trade.stop_loss then some .stopLoss
  else if trade.take_profit ≤ current_price then some .takeProfit
  else if max_position_time * 60 < now - trade.timestamp then some .maxTime
  else
    match lastRow with
    | none => none
    | some r =>
      match trade.side with
      | .SELL => none
      | .BUY =>
        if PyFloat.lt (.v rsi_overbought) r.RSI || PyFloat.lt r.close r.EMA5 ||
           PyFloat.lt r.MACD r.Signal_Line then some .technicalExit
        else none

/-!  RiskManager.check_risk_limits (src/risk_manager.py 36-84). -/

/-- An entry of RiskManager.trade_history.  update_trade_stats records
{timestamp, profit_loss, result}; check_risk_limits additionally probes an
optional exit_time key, kept here as an Option. -/
structure TradeRecord where
  timestamp : ℚ
  profit_loss : ℚ
  exit_time : Option ℚ
deriving DecidableEq, Repr

/-- The RiskManager state read by check_risk_limits. -/
structure RiskState where
  daily_profit_loss : ℚ
  trade_history : List TradeRecord
deriving DecidableEq, Repr

/-- The configuration check_risk_limits reads (environment values). -/
structure RiskConfig where
  max_daily_loss : ℚ
  max_open_positions : ℕ
  min_time_between_trades : ℚ
  max_position_size : ℚ
  initial_balance : ℚ
deriving DecidableEq, Repr

/-- check_risk_limits check (a): abs(daily_stats['profit_loss']) >=
max_daily_loss. -/
def daily_loss_hit (cfg : RiskConfig) (st : RiskState) : Bool :=
  decide (cfg.max_daily_loss ≤ |st.daily_profit_loss|)

/-- Open positions as the source counts them: history records with no
exit_time. -/
def open_positions_count (st : RiskState) : ℕ :=
  (st.trade_history.filter (fun t => t.exit_time.isNone)).length

/-- check_risk_limits check (b): open_positions >= MAX_OPEN_POSITIONS. -/
def max_positions_hit (cfg : RiskConfig) (st : RiskState) : Bool :=
  decide (cfg.max_open_positions ≤ open_positions_count st)

/-- check_risk_limits check (c): the history is nonempty and the seconds
since its last record's timestamp are below MIN_TIME_BETWEEN_TRADES. -/
def min_time_hit (cfg : RiskConfig) (st : RiskState) (now : ℚ) : Bool :=
  match st.trade_history.getLast? with
  | some last => decide (now - last.timestamp < cfg.min_time_between_trades)
  | none => false

/-- check_risk_limits check (d): position_value (= the entry price) exceeds
INITIAL_BALANCE * max_position_size. -/
def position_too_large (cfg : RiskConfig) (price : ℚ) : Bool :=
  decide (cfg.initial_balance * cfg.max_position_size < price)

/-- The rejection reasons check_risk_limits logs, plus acceptance. -/
inductive RiskCheckResult where
  | ok : RiskCheckResult
  | dailyLossLimit : RiskCheckResult
  | maxPositions : RiskCheckResult
  | minTimeBetween : RiskCheckResult
  | positionTooLarge : RiskCheckResult
deriving DecidableEq, Repr

/-- RiskManager.check_risk_limits (src/risk_manager.py 36-84): the four
checks in source order, first failure wins; the method's boolean result is
(check_risk_limits ... = ok). -/
def check_risk_limits (cfg : RiskConfig) (st : RiskState) (now price : ℚ) :
    RiskCheckResult :=
  if daily_loss_hit cfg st then .dailyLossLimit
  else if max_positions_hit cfg st then .maxPositions
  else if min_time_hit cfg st now then .minTimeBetween
  else if position_too_large cfg price then .positionTooLarge
  else .ok

/-- Follows the spec's words (section 4.4 / claim C6), for comparison with
check_risk_limits: (a) the daily realized-LOSS budget is not exceeded
(profits never trip it), (b) the open-position count is below the maximum,
(c) the minimum time since the last trade has elapsed, (d) the proposed
notional is below the balance-fraction cap. -/
def check_risk_limits_spec (cfg : RiskConfig) (st : RiskState) (now price : ℚ) :
    Bool :=
  decide (max 0 (-st.daily_profit_loss) < cfg.max_daily_loss) &&
  decide (open_positions_count st < cfg.max_open_positions) &&
  (match st.trade_history.getLast? with
   | some last => decide (cfg.min_time_between_trades ≤ now - last.timestamp)
   | none => true) &&
  decide (price < cfg.initial_balance * cfg.max_position_size)

/-!  TradingBot.process_signals (src/main.py 1032-1092) and the
RateLimiter it is supposed to consult (src/trading_manager.py). -/

/-- The methods the RiskManager class actually defines
(src/risk_manager.py).  calculate_position_size is NOT among them. -/
def riskManagerMethods : List String :=
  ["check_risk_limits", "calculate_lot_size", "check_trade_allowed",
   "calculate_stop_loss", "calculate_take_profit", "update_trade_stats",
   "get_trading_stats", "get_stats", "adjust_position_size",
   "calculate_position_risk"]

/-- An order handed to binance.place_order. -/
structure PlacedOrder where
  symbol : String
  side : Side
  quantity : ℚ
deriving DecidableEq, Repr

/-- TradingBot.process_signals (src/main.py 1032-1092).  For each signal:
signals failing check_risk_limits are skipped (continue); for a passing
signal the body evaluates self.risk_manager.calculate_position_size, an
attribute RiskManager does not define (riskManagerMethods), so Python
raises AttributeError, which escapes the loop into the method's except
handler: no state was mutated and no order was placed.  (Even without the
error, the place_order call sits inside the `if position_size <= 0` block
after its continue, so it is unreachable and the later `if order` would
fault on an unbound local.)  `checkRisk` abstracts the risk-manager state
check_risk_limits reads; the result holds for every oracle.  Returns the
resulting active_trades together with the orders placed. -/
def process_signals (checkRisk : Signal → Bool)
    (active : List (String × Trade)) :
    List Signal → List (String × Trade) × List PlacedOrder
  | [] => (active, [])
  | s :: rest =>
    if !(checkRisk s) then process_signals checkRisk active rest
    else if "calculate_position_size" ∈ riskManagerMethods then
      (active, [])
    else
      (active, [])

/-- Observable events of the signal-to-order path: rate-limiter gate
consultations and order placements. -/
inductive PipelineEvent where
  | gateCheckSignal : String → PipelineEvent
  | gateOrder : String → PipelineEvent
  | orderPlaced : String → PipelineEvent
deriving DecidableEq, Repr

/-- The event trace of TradingBot.process_signals: the source consults
neither TradingManager.can_check_signals nor TradingManager.can_place_order
(the TradingManager instantiated at src/main.py line 102 is never called),
and the AttributeError on calculate_position_size aborts a passing signal
before any order placement. -/
def process_signals_events (checkRisk : Signal → Bool) :
    List Signal → List PipelineEvent
  | [] => []
  | s :: rest =>
    if !(checkRisk s) then process_signals_events checkRisk rest
    else []

/-- The TradingManager configuration (src/trading_manager.py 10-28). -/
structure TMConfig where
  signal_check_interval : ℚ
  order_cooldown : ℚ
  max_daily_orders : ℕ
  trading_hours_start : ℕ
  trading_hours_end : ℕ
  trading_days : List ℕ
deriving DecidableEq, Repr

/-- The TradingManager state can_place_order reads and resets. -/
structure TMState where
  last_orders : List (String × ℚ)
  daily_orders_count : ℕ
  last_reset_date : ℤ
deriving DecidableEq, Repr

/-- TradingManager._is_trading_time (src/trading_manager.py 84-98). -/
def is_trading_time (cfg : TMConfig) (weekday hour : ℕ) : Bool :=
  decide (weekday ∈ cfg.trading_days) &&
  (decide (cfg.trading_hours_start ≤ hour) && decide (hour < cfg.trading_hours_end))

/-- TradingManager.can_place_order (src/trading_manager.py 55-82): reset
the daily counter on a new date, then the daily-limit, per-symbol cooldown
and trading-hours gates.  Returns the answer plus the (possibly reset)
state. -/
def can_place_order (cfg : TMConfig) (st : TMState) (nowDate : ℤ)
    (weekday hour : ℕ) (nowSec : ℚ) (symbol : String) : Bool × TMState :=
  let st' := if nowDate ≠ st.last_reset_date then
               { st with daily_orders_count := 0, last_reset_date := nowDate }
             else st
  if cfg.max_daily_orders ≤ st'.daily_orders_count then (false, st')
  else
    match (st'.last_orders.find? (fun p => p.1 == symbol)) with
    | some p =>
      if nowSec - p.2 < cfg.order_cooldown then (false, st')
      else if !(is_trading_time cfg weekday hour) then (false, st')
      else (true, st')
    | none =>
      if !(is_trading_time cfg weekday hour) then (false, st')
      else (true, st')

/-!  PriceWindow: TradingBot.update_realtime_data (src/main.py 416-432). -/

/-- A cached candle dict (the 'open' key is openPrice here, 'open' being a
Lean keyword). -/
structure Candle where
  timestamp : ℤ
  openPrice : ℚ
  high : ℚ
  low : ℚ
  close : ℚ
  volume : ℚ
  symbol : String
deriving DecidableEq, Repr

/-- Python's list[-n:]: the last n elements. -/
def lastN (n : ℕ) (l : List α) : List α := (l.reverse.take n).reverse

/-- TradingBot.update_realtime_data for one symbol (src/main.py 416-432):
unconditionally append the candle, then truncate to the newest 100 when
the cache exceeds 100 entries.  There is no timestamp check and no error
is signalled. -/
def update_realtime_data (window : List Candle) (c : Candle) : List Candle :=
  let w := window ++ [c]
  if 100 < w.length then lastN 100 w else w

/-- A sequence of candle-closed events applied to a window. -/
def applyAppends (window : List Candle) (cs : List Candle) : List Candle :=
  cs.foldl update_realtime_data window

/-!  Helper lemmas about lastN / the window. -/

theorem lastN_length (n : ℕ) (l : List α) : (lastN n l).length = min n l.length := by
  simp [lastN]

theorem lastN_eq_self {n : ℕ} {l : List α} (h : l.length ≤ n) : lastN n l = l := by
  simp [lastN, List.take_of_length_le, h, List.length_reverse]

theorem lastN_suffix (n : ℕ) (l : List α) : lastN n l <:+ l := by
  have h : (lastN n l).reverse <+: l.reverse := by
    simpa [lastN] using List.take_prefix n l.reverse
  exact List.reverse_prefix.mp (by simpa [lastN] using h)

theorem lastN_append_lastN (n : ℕ) (a b : List α) :
    lastN n (lastN n a ++ b) = lastN n (a ++ b) := by
  apply List.reverse_injective
  simp only [lastN, List.reverse_append, List.reverse_reverse]
  rw [List.take_append_eq_append_take, List.take_append_eq_append_take,
    List.take_take]
  congr 1
  exact congrArg (fun k => List.take k a.reverse) (min_eq_left (Nat.sub_le _ _))

theorem update_realtime_data_eq_lastN (w : List Candle) (c : Candle) :
    update_realtime_data w c = lastN 100 (w ++ [c]) := by
  unfold update_realtime_data
  by_cases h : 100 < (w ++ [c]).length
  · simp only [if_pos h]
  · simp only [if_neg h]
    exact (lastN_eq_self (Nat.le_of_not_lt h)).symm

theorem applyAppends_eq_lastN (cs : List Candle) :
    ∀ w : List Candle, w.length ≤ 100 → applyAppends w cs = lastN 100 (w ++ cs) := by
  induction cs with
  | nil => intro w hw; simpa [applyAppends] using (lastN_eq_self hw).symm
  | cons c cs ih =>
    intro w _
    have hstep : applyAppends w (c :: cs) = applyAppends (update_realtime_data w c) cs := rfl
    have hlen : (update_realtime_data w c).length ≤ 100 := by
      rw [update_realtime_data_eq_lastN, lastN_length]
      exact min_le_left _ _
    rw [hstep, ih _ hlen, update_realtime_data_eq_lastN, lastN_append_lastN]
    simp

/-!  Concrete sample data used by witnesses and counterexamples. -/

/-- A sample open trade. -/
def tradeEx : Trade :=
  { side := .BUY, entry_price := 100, quantity := 1, stop_loss := 99,
    take_profit := 102, timestamp := 0, signal_strength := 60 }

/-- A one-row frame whose last row satisfies every LONG condition. -/
def frameBuy : Frame :=
  { close := [.v 10], EMA5 := [.v 9], EMA13 := [.v 8], RSI := [.v 50],
    MACD := [.v 2], Signal_Line := [.v 1], BB_middle := [.v 5],
    BB_upper := [.v 99], BB_lower := [.v 0], Momentum := [.v 1] }

/-- The BUY signal analyze_scalping_signals produces from frameBuy. -/
def signalBuy : Signal :=
  { side := .BUY, symbol := "BTCUSDT", price := .v 10, signal_strength := 100,
    stop_loss := PyFloat.mul (.v 10) (.v (993/1000)),
    take_profit := PyFloat.mul (.v 10) (.v (1018/1000)) }

/-!  Claim theorems. -/

/-- C1: for every risk-check oracle, every active_trades state and every
signal list, TradingBot.process_signals returns the active trades unchanged
and places no order: the first signal that passes check_risk_limits hits
the missing RiskManager.calculate_position_size attribute (it is not among
riskManagerMethods), the AttributeError is caught by the method's except
handler with no state mutated, and signals failing the check only
continue. -/
theorem claim_C1 (checkRisk : Signal → Bool) (active : List (String × Trade))
    (signals : List Signal) :
    process_signals checkRisk active signals = (active, []) ∧
    "calculate_position_size" ∉ riskManagerMethods := by
  refine ⟨?_, by decide⟩
  induction signals with
  | nil => rfl
  | cons s rest ih =>
    by_cases h : checkRisk s <;>
      simp [process_signals, h, ih]

/-- C7: the signal-processing path consults neither rate-limiter gate and
never places an order: its observable event trace is empty for every
oracle and every signal list (TradingManager.can_check_signals and
TradingManager.can_place_order exist but are never invoked by the decision
pipeline, so the claimed gating holds only vacuously). -/
theorem claim_C7 (checkRisk : Signal → Bool) (signals : List Signal)
    (symbol : String) :
    process_signals_events checkRisk signals = [] ∧
    PipelineEvent.gateCheckSignal symbol ∉ process_signals_events checkRisk signals ∧
    PipelineEvent.gateOrder symbol ∉ process_signals_events checkRisk signals ∧
    PipelineEvent.orderPlaced symbol ∉ process_signals_events checkRisk signals := by
  have he : process_signals_events checkRisk signals = [] := by
    induction signals with
    | nil => rfl
    | cons s rest ih =>
      by_cases h : checkRisk s <;> simp [process_signals_events, h, ih]
  refine ⟨he, ?_, ?_, ?_⟩ <;> simp [he]

/-- C10: whenever a position is already open for a symbol (the symbol is a
key of active_trades), analyze_scalping_signals returns the empty signal
list, whatever the indicator values are. -/
theorem claim_C10 (minStrength : ℚ) (active : List (String × Trade))
    (f : Frame) (symbol : String) (h : symbol ∈ active.map Prod.fst) :
    analyze_scalping_signals minStrength active f symbol = [] := by
  have hany : active.any (fun p => p.1 == symbol) = true := by
    rw [List.any_eq_true]
    rcases List.mem_map.mp h with ⟨p, hp, hpe⟩
    exact ⟨p, hp, by simp [hpe]⟩
  unfold analyze_scalping_signals
  by_cases hemp : f.close.isEmpty <;> simp [hemp, hany]

/-- C10 witness: with a BTCUSDT trade open, the frame that otherwise emits
a BUY signal yields nothing for BTCUSDT. -/
theorem claim_C10_witness :
    "BTCUSDT" ∈ ([("BTCUSDT", tradeEx)].map Prod.fst) ∧
    analyze_scalping_signals 50 [("BTCUSDT", tradeEx)] frameBuy "BTCUSDT" = [] :=
  ⟨by decide, claim_C10 50 [("BTCUSDT", tradeEx)] frameBuy "BTCUSDT" (by decide)⟩

/-- A short trade as analyze_scalping_signals would configure it
(stop_loss above entry, take_profit below). -/
def shortTradeEx : Trade :=
  { side := .SELL, entry_price := 100, quantity := 1, stop_loss := 1007/10,
    take_profit := 982/10, timestamp := 0, signal_strength := 60 }

/-- A long trade for which all four exit conditions hold at once. -/
def longTradeEx : Trade :=
  { side := .BUY, entry_price := 100, quantity := 1, stop_loss := 100,
    take_profit := 90, timestamp := 0, signal_strength := 60 }

/-- An indicator row triggering every technical-exit condition for a long. -/
def reversalRow : Row :=
  { close := .v 1, EMA5 := .v 2, EMA13 := .v 2, RSI := .v 99, MACD := .v 0,
    Signal_Line := .v 1, BB_middle := .v 1, BB_upper := .v 1, BB_lower := .v 1,
    Momentum := .v (-1) }

/-- C2: the stop-loss test of manage_active_trades is current_price <=
stop_loss REGARDLESS of position side, so a short position whose price has
risen beyond its stop-loss (currentPrice = 105 >= stopLoss = 100.7) is
closed by the second check with reason TakeProfit, not StopLoss as the
claim states; for a long position the priority order does hold: with price
below stop-loss and simultaneously beyond take-profit, past max time and
in technical reversal, the reported reason is StopLoss. -/
theorem claim_C2 :
    ((1007/10 : ℚ) ≤ 105) ∧
    manage_active_trades_exit 10 70 600 105 none shortTradeEx =
      some ExitReason.takeProfit ∧
    manage_active_trades_exit 10 70 600 105 none shortTradeEx ≠
      some ExitReason.stopLoss ∧
    manage_active_trades_exit 10 70 601 95 (some reversalRow) longTradeEx =
      some ExitReason.stopLoss := by
  have hshort : manage_active_trades_exit 10 70 600 105 none shortTradeEx =
      some ExitReason.takeProfit := by
    unfold manage_active_trades_exit shortTradeEx
    norm_num
  refine ⟨by norm_num, hshort, by rw [hshort]; simp, ?_⟩
  unfold manage_active_trades_exit longTradeEx
  norm_num

/-- First candle of the C3 counterexample. -/
def candleA : Candle :=
  { timestamp := 10, openPrice := 1, high := 1, low := 1, close := 1,
    volume := 1, symbol := "BTCUSDT" }

/-- A stale candle: same timestamp as candleA. -/
def candleStale : Candle :=
  { timestamp := 10, openPrice := 2, high := 2, low := 2, close := 2,
    volume := 2, symbol := "BTCUSDT" }

/-- C3 counterexample: appending a candle whose timestamp equals (hence is
less than or equal to) the last stored one mutates the window, appending
the stale candle; there is no rejection and no DataError. -/
theorem claim_C3_counterexample :
    candleStale.timestamp ≤ candleA.timestamp ∧
    update_realtime_data [candleA] candleStale = [candleA, candleStale] ∧
    update_realtime_data [candleA] candleStale ≠ [candleA] := by decide

theorem head?_take_pos {n : ℕ} (h : 0 < n) (l : List α) :
    (l.take n).head? = l.head? := by
  cases l with
  | nil => simp
  | cons x xs =>
    cases n with
    | zero => exact absurd h (by omega)
    | succ m => simp [List.take_succ_cons]

/-- C3 amended: update_realtime_data appends every candle unconditionally
(no timestamp check, no error): the appended candle always becomes the
newest entry and the window length is min(previous + 1, 100). -/
theorem claim_C3 (w : List Candle) (c : Candle) :
    (update_realtime_data w c).getLast? = some c ∧
    (update_realtime_data w c).length = min (w.length + 1) 100 := by
  rw [update_realtime_data_eq_lastN]
  constructor
  · have h0 : (lastN 100 (w ++ [c])).getLast? = ((w ++ [c]).reverse.take 100).head? := by
      rw [lastN, ← List.head?_reverse, List.reverse_reverse]
    rw [h0, head?_take_pos (by norm_num), List.head?_reverse]
    simp
  · rw [lastN_length]
    simp [min_comm]

/-- C9: starting from an empty window, after any prefix of a candle
sequence the window holds at most 100 candles, holds exactly the most
recent candles of that prefix (the last 100, oldest evicted first), and
when the appended timestamps are strictly increasing the stored window is
strictly increasing in timestamp as well. -/
theorem claim_C9 (cs : List Candle) (n : ℕ)
    (hmono : (cs.map Candle.timestamp).Pairwise (· < ·)) :
    (applyAppends [] (cs.take n)).length ≤ 100 ∧
    applyAppends [] (cs.take n) = lastN 100 (cs.take n) ∧
    ((applyAppends [] (cs.take n)).map Candle.timestamp).Pairwise (· < ·) := by
  have heq : applyAppends [] (cs.take n) = lastN 100 (cs.take n) := by
    simpa using applyAppends_eq_lastN (cs.take n) [] (by simp)
  refine ⟨?_, heq, ?_⟩
  · rw [heq, lastN_length]
    exact min_le_left _ _
  · rw [heq]
    have h1 : List.Sublist (lastN 100 (cs.take n)) cs :=
      ((lastN_suffix 100 (cs.take n)).sublist).trans (List.take_sublist n cs)
    exact hmono.sublist (h1.map Candle.timestamp)

/-- Three strictly increasing candles for the C9 witness. -/
def candlesMono : List Candle :=
  [{ timestamp := 1, openPrice := 1, high := 1, low := 1, close := 1,
     volume := 1, symbol := "BTCUSDT" },
   { timestamp := 2, openPrice := 2, high := 2, low := 2, close := 2,
     volume := 2, symbol := "BTCUSDT" },
   { timestamp := 3, openPrice := 3, high := 3, low := 3, close := 3,
     volume := 3, symbol := "BTCUSDT" }]

/-- C9 witness: the window invariant instantiated on three increasing
candles after two appends. -/
theorem claim_C9_witness :
    ((candlesMono.map Candle.timestamp).Pairwise (· < ·)) ∧
    ((applyAppends [] (candlesMono.take 2)).length ≤ 100 ∧
     applyAppends [] (candlesMono.take 2) = lastN 100 (candlesMono.take 2) ∧
     ((applyAppends [] (candlesMono.take 2)).map Candle.timestamp).Pairwise (· < ·)) :=
  ⟨by decide, claim_C9 candlesMono 2 (by decide)⟩

/-- Risk configuration for the C6 example states. -/
def riskCfgEx : RiskConfig :=
  { max_daily_loss := 5, max_open_positions := 3, min_time_between_trades := 300,
    max_position_size := 1, initial_balance := 1000 }

/-- A profitable day: +100 realized, no realized loss at all. -/
def riskStProfit : RiskState := { daily_profit_loss := 100, trade_history := [] }

/-- C6 counterexample: on a day with a realized PROFIT of 100 (no realized
loss, budget 5 untouched) and every spec check passing, check_risk_limits
still rejects with the daily-loss reason, because the source compares
abs(daily profit_loss) against the budget; so acceptance is not equivalent
to the four checks as the claim words them. -/
theorem claim_C6_counterexample :
    check_risk_limits_spec riskCfgEx riskStProfit 0 50 = true ∧
    check_risk_limits riskCfgEx riskStProfit 0 50 = RiskCheckResult.dailyLossLimit ∧
    check_risk_limits riskCfgEx riskStProfit 0 50 ≠ RiskCheckResult.ok := by
  have hspec : check_risk_limits_spec riskCfgEx riskStProfit 0 50 = true := by
    unfold check_risk_limits_spec riskCfgEx riskStProfit open_positions_count
    norm_num
  have hcode : check_risk_limits riskCfgEx riskStProfit 0 50 =
      RiskCheckResult.dailyLossLimit := by
    unfold check_risk_limits daily_loss_hit riskCfgEx riskStProfit
    norm_num
  exact ⟨hspec, hcode, by rw [hcode]; simp⟩

/-- C6 amended: check_risk_limits performs exactly the four checks in
source order, any single firing check rejects with its own reason and the
later checks are skipped, and the signal is accepted iff none fires.
Check (a), however, fires on the absolute daily PnL (profits as well as
losses), not only on the realized-loss budget. -/
theorem claim_C6 (cfg : RiskConfig) (st : RiskState) (now price : ℚ) :
    (check_risk_limits cfg st now price = RiskCheckResult.ok ↔
      (daily_loss_hit cfg st = false ∧ max_positions_hit cfg st = false ∧
       min_time_hit cfg st now = false ∧ position_too_large cfg price = false)) ∧
    (daily_loss_hit cfg st = true →
      check_risk_limits cfg st now price = RiskCheckResult.dailyLossLimit) ∧
    (daily_loss_hit cfg st = false → max_positions_hit cfg st = true →
      check_risk_limits cfg st now price = RiskCheckResult.maxPositions) ∧
    (daily_loss_hit cfg st = false → max_positions_hit cfg st = false →
      min_time_hit cfg st now = true →
      check_risk_limits cfg st now price = RiskCheckResult.minTimeBetween) ∧
    (daily_loss_hit cfg st = false → max_positions_hit cfg st = false →
      min_time_hit cfg st now = false → position_too_large cfg price = true →
      check_risk_limits cfg st now price = RiskCheckResult.positionTooLarge) := by
  cases hA : daily_loss_hit cfg st <;>
    cases hB : max_positions_hit cfg st <;>
      cases hC : min_time_hit cfg st now <;>
        cases hD : position_too_large cfg price <;>
          simp [check_risk_limits, hA, hB, hC, hD]

/-- A clean risk state: no PnL, no history. -/
def riskStClean : RiskState := { daily_profit_loss := 0, trade_history := [] }

/-- C6 witness: the amended theorem applied at a concrete accepting state. -/
theorem claim_C6_witness :
    check_risk_limits riskCfgEx riskStClean 1000 50 = RiskCheckResult.ok :=
  (claim_C6 riskCfgEx riskStClean 1000 50).1.mpr
    ⟨by unfold daily_loss_hit riskCfgEx riskStClean; norm_num,
     by unfold max_positions_hit riskCfgEx riskStClean open_positions_count; norm_num,
     by unfold min_time_hit riskStClean; simp,
     by unfold position_too_large riskCfgEx; norm_num⟩

/-- Under the four directional SHORT conditions that contradict strength
sub-conditions (trend, MACD relation, price-vs-band, momentum), the
weighted sum of calculate_signal_strength can collect at most the weights
1.2 (close > EMA5) and 1.0 (RSI band), so the strength is at most
2.2/6.5*100 = 2200/65. -/
theorem strength_le_of_short_conds {r : Row}
    (h1 : PyFloat.lt r.EMA5 r.EMA13 = true)
    (h2 : PyFloat.lt r.MACD r.Signal_Line = true)
    (h3 : PyFloat.lt r.close r.BB_middle = true)
    (h4 : PyFloat.lt r.Momentum (.v 0) = true) :
    calculate_signal_strength r ≤ 2200/65 := by
  have e1 : PyFloat.lt r.EMA13 r.EMA5 = false := PyFloat.lt_asymm_false h1
  have e2 : PyFloat.lt r.Signal_Line r.MACD = false := PyFloat.lt_asymm_false h2
  have e3 : PyFloat.lt r.BB_middle r.close = false := PyFloat.lt_asymm_false h3
  have e4 : PyFloat.lt (.v 0) r.Momentum = false := PyFloat.lt_asymm_false h4
  unfold calculate_signal_strength
  cases hc1 : PyFloat.lt r.EMA5 r.close <;>
    cases hc3 : PyFloat.lt (.v 35) r.RSI && PyFloat.lt r.RSI (.v 65) <;>
      simp [e1, e2, e3, e4, hc1, hc3] <;> norm_num

/-- C5: whenever the five directional SHORT conditions hold on a row, the
signal strength is at most 2200/65 (about 33.85); consequently, for any
min_signal_strength of at least 50 (the default), analyze_scalping_signals
never emits a SELL signal, for any frame, symbol or active-trades state. -/
theorem claim_C5 :
    (∀ r : Row, PyFloat.lt r.EMA5 r.EMA13 = true →
      PyFloat.lt (.v 35) r.RSI = true → PyFloat.lt r.RSI (.v 65) = true →
      PyFloat.lt r.MACD r.Signal_Line = true →
      PyFloat.lt r.close r.BB_middle = true →
      PyFloat.lt r.Momentum (.v 0) = true →
      calculate_signal_strength r ≤ 2200/65) ∧
    (∀ (minStrength : ℚ) (active : List (String × Trade)) (f : Frame)
      (symbol : String) (s : Signal), 50 ≤ minStrength →
      s ∈ analyze_scalping_signals minStrength active f symbol →
      s.side ≠ Side.SELL) := by
  constructor
  · intro r h1 _ _ h2 h3 h4
    exact strength_le_of_short_conds h1 h2 h3 h4
  · intro minStrength active f symbol s h50 hmem
    unfold analyze_scalping_signals at hmem
    by_cases hemp : f.close.isEmpty
    · simp [hemp] at hmem
    · simp only [hemp, if_false, Bool.false_eq_true] at hmem
      by_cases hact : active.any (fun p => p.1 == symbol)
      · simp [hact] at hmem
      · simp only [hact, if_false, Bool.false_eq_true] at hmem
        by_cases hlong : long_conditions minStrength (frame_last_row f)
        · simp only [hlong, if_true] at hmem
          simp only [List.mem_singleton] at hmem
          subst hmem
          simp
        · simp only [hlong, if_false, Bool.false_eq_true] at hmem
          by_cases hshort : short_conditions minStrength (frame_last_row f)
          · exfalso
            unfold short_conditions at hshort
            simp only [Bool.and_eq_true, decide_eq_true_eq] at hshort
            obtain ⟨⟨⟨⟨⟨⟨hs1, _⟩, _⟩, hs4⟩, hs5⟩, hs6⟩, hs7⟩ := hshort
            have hb := strength_le_of_short_conds hs1 hs4 hs5 hs6
            linarith
          · simp [hshort] at hmem

/-- C5 witness: at the default threshold 50, the sample frame emits
exactly the BUY signal, which is not a SELL. -/
theorem claim_C5_witness :
    (50 : ℚ) ≤ 50 ∧
    signalBuy ∈ analyze_scalping_signals 50 [] frameBuy "BTCUSDT" ∧
    signalBuy.side ≠ Side.SELL := by
  have hmem : signalBuy ∈ analyze_scalping_signals 50 [] frameBuy "BTCUSDT" := by
    unfold analyze_scalping_signals
    norm_num [frameBuy, frame_last_row, long_conditions,
      calculate_signal_strength, PyFloat.lt, signalBuy]
  exact ⟨le_refl 50, hmem,
    claim_C5.2 50 [] frameBuy "BTCUSDT" signalBuy (le_refl 50) hmem⟩

/-!  Supporting lemmas for the RSI pipeline (claims C8 and C4). -/

theorem of_mem_zipWith {f : α → β → γ} :
    ∀ {xs : List α} {ys : List β} {z : γ},
      z ∈ List.zipWith f xs ys → ∃ a b, z = f a b
  | [], _, _, h => by simp at h
  | _ :: _, [], _, h => by simp at h
  | x :: xs, y :: ys, z, h => by
    rcases List.mem_cons.mp h with h | h
    · exact ⟨x, y, h⟩
    · exact of_mem_zipWith h

theorem diffQ_shape {closes : List ℚ} {x : PyFloat} (h : x ∈ diffQ closes) :
    x = .nan ∨ ∃ q, x = .v q := by
  cases closes with
  | nil => simp [diffQ] at h
  | cons c cs =>
    rcases List.mem_cons.mp h with h | h
    · exact Or.inl h
    · rcases of_mem_zipWith h with ⟨a, b, rfl⟩
      exact Or.inr ⟨a - b, rfl⟩

theorem gain_series_shape {closes : List ℚ} {x : PyFloat}
    (h : x ∈ gain_series closes) : ∃ q, x = .v q ∧ 0 ≤ q := by
  rcases List.mem_map.mp h with ⟨d, hd, rfl⟩
  rcases diffQ_shape hd with rfl | ⟨q, rfl⟩
  · exact ⟨0, by simp [PyFloat.lt], le_refl 0⟩
  · by_cases hq : (0 : ℚ) < q
    · exact ⟨q, by simp [PyFloat.lt, hq], hq.le⟩
    · exact ⟨0, by simp [PyFloat.lt, hq], le_refl 0⟩

theorem loss_series_shape {closes : List ℚ} {x : PyFloat}
    (h : x ∈ loss_series closes) : ∃ q, x = .v q ∧ 0 ≤ q := by
  rcases List.mem_map.mp h with ⟨y, hy, rfl⟩
  rcases List.mem_map.mp hy with ⟨d, hd, rfl⟩
  rcases diffQ_shape hd with rfl | ⟨q, rfl⟩
  · exact ⟨0, by simp [PyFloat.lt, PyFloat.neg], le_refl 0⟩
  · by_cases hq : q < (0 : ℚ)
    · exact ⟨-q, by simp [PyFloat.lt, PyFloat.neg, hq], by linarith⟩
    · exact ⟨0, by simp [PyFloat.lt, PyFloat.neg, hq], le_refl 0⟩

theorem foldl_add_finite :
    ∀ (l : List PyFloat) (a : ℚ), 0 ≤ a →
      (∀ x ∈ l, ∃ q, x = .v q ∧ 0 ≤ q) →
      ∃ t, l.foldl PyFloat.add (.v a) = .v t ∧ 0 ≤ t
  | [], a, ha, _ => ⟨a, rfl, ha⟩
  | x :: xs, a, ha, h => by
    rcases h x (by simp) with ⟨q, rfl, hq⟩
    have hstep : PyFloat.add (.v a) (.v q) = .v (a + q) := rfl
    have := foldl_add_finite xs (a + q) (by linarith)
      (fun y hy => h y (List.mem_cons_of_mem _ hy))
    simpa [List.foldl, hstep] using this

theorem diffQ_length (closes : List ℚ) : (diffQ closes).length = closes.length := by
  cases closes <;> simp [diffQ]

theorem gain_series_length (closes : List ℚ) :
    (gain_series closes).length = closes.length := by
  simp [gain_series, diffQ_length]

theorem loss_series_length (closes : List ℚ) :
    (loss_series closes).length = closes.length := by
  simp [loss_series, diffQ_length]

theorem rollingMean_length (n : ℕ) (s : List PyFloat) :
    (rollingMean n s).length = s.length := by
  simp [rollingMean]

theorem rollingMean_full {n : ℕ} {s : List PyFloat} {i : ℕ}
    (hn : 0 < n) (hi : n ≤ i + 1) (hlen : i < s.length)
    (hfin : ∀ x ∈ s, ∃ q, x = .v q ∧ 0 ≤ q) :
    ∃ m, (rollingMean n s)[i]? = some (.v m) ∧ 0 ≤ m := by
  have hidx : (rollingMean n s)[i]? =
      some (if i + 1 < n then .nan
            else meanPF ((s.take (i + 1)).drop (i + 1 - n))) := by
    simp [rollingMean, hlen]
  rw [hidx, if_neg (by omega)]
  have hwmem : ∀ x ∈ (s.take (i + 1)).drop (i + 1 - n), ∃ q, x = .v q ∧ 0 ≤ q :=
    fun x hx => hfin x ((List.take_sublist _ _).subset ((List.drop_sublist _ _).subset hx))
  have hwlen : ((s.take (i + 1)).drop (i + 1 - n)).length = n := by
    simp only [List.length_drop, List.length_take]
    omega
  rcases foldl_add_finite _ 0 (le_refl 0) hwmem with ⟨t, hsum, ht⟩
  have hnz : ((n : ℚ)) ≠ 0 := by
    exact_mod_cast Nat.pos_iff_ne_zero.mp hn
  refine ⟨t / n, ?_, by positivity⟩
  simp only [meanPF, sumPF, hsum, hwlen]
  simp [PyFloat.div, hnz]

theorem getElem?_zipWith' {f : α → β → γ} :
    ∀ {xs : List α} {ys : List β} {i : ℕ} {a : α} {b : β},
      xs[i]? = some a → ys[i]? = some b →
      (List.zipWith f xs ys)[i]? = some (f a b)
  | [], _, i, _, _, ha, _ => by simp at ha
  | _ :: _, [], i, _, _, _, hb => by simp at hb
  | x :: xs, y :: ys, 0, a, b, ha, hb => by
    simp at ha hb
    simp [ha, hb]
  | x :: xs, y :: ys, i + 1, a, b, ha, hb => by
    simp only [List.getElem?_cons_succ] at ha hb
    simpa [List.zipWith_cons_cons, List.getElem?_cons_succ] using
      getElem?_zipWith' ha hb

theorem rsiCell_pos_loss {g l : ℚ} (hg : 0 ≤ g) (hl : 0 < l) :
    ∃ q, rsiCell (.v g) (.v l) = .v q ∧ 0 ≤ q ∧ q ≤ 100 := by
  have hlne : l ≠ 0 := ne_of_gt hl
  have hrs : (0 : ℚ) ≤ g / l := div_nonneg hg hl.le
  have hdpos : (0 : ℚ) < 1 + g / l := by linarith
  refine ⟨100 - 100 / (1 + g / l), ?_, ?_, ?_⟩
  · simp [rsiCell, PyFloat.div, PyFloat.add, PyFloat.sub, PyFloat.neg, hlne,
      ne_of_gt hdpos, sub_eq_add_neg]
  · have : 100 / (1 + g / l) ≤ 100 := by
      rw [div_le_iff₀ hdpos]
      nlinarith
    linarith
  · have : 0 < 100 / (1 + g / l) := by positivity
    linarith

theorem rsiCell_zero_loss_pos_gain {g : ℚ} (hg : 0 < g) :
    rsiCell (.v g) (.v 0) = .v 100 := by
  have hng : ¬ g < 0 := by linarith
  simp [rsiCell, PyFloat.div, PyFloat.add, PyFloat.sub, PyFloat.neg, hg, hng]

theorem rsiCell_zero_zero : rsiCell (.v 0) (.v 0) = PyFloat.nan := by
  simp [rsiCell, PyFloat.div, PyFloat.add, PyFloat.sub, PyFloat.neg]

/-- C8 amended: for a window with at least rsi_period+1 candles, the
last-row rolling average gain g and average loss l are finite nonnegative
numbers, and the last-row RSI satisfies: if l > 0 then RSI is a number in
[0,100]; if l = 0 and g > 0 then RSI = 100 exactly; but if l = 0 and g = 0
(a flat window) then RSI is NaN, not a number in [0,100]. -/
theorem claim_C8 (period : ℕ) (closes : List ℚ) (hp : 0 < period)
    (hlen : period + 1 ≤ closes.length) :
    ∃ g l r, (avg_gain period closes)[closes.length - 1]? = some (.v g) ∧
      (avg_loss period closes)[closes.length - 1]? = some (.v l) ∧
      (rsi_column period closes)[closes.length - 1]? = some r ∧
      0 ≤ g ∧ 0 ≤ l ∧
      (0 < l → ∃ q, r = .v q ∧ 0 ≤ q ∧ q ≤ 100) ∧
      (l = 0 → 0 < g → r = .v 100) ∧
      (l = 0 → g = 0 → r = PyFloat.nan) := by
  have hig : closes.length - 1 < (gain_series closes).length := by
    rw [gain_series_length]; omega
  have hil : closes.length - 1 < (loss_series closes).length := by
    rw [loss_series_length]; omega
  rcases rollingMean_full hp (by omega) hig (fun x hx => gain_series_shape hx)
    with ⟨g, hg_eq, hg0⟩
  rcases rollingMean_full hp (by omega) hil (fun x hx => loss_series_shape hx)
    with ⟨l, hl_eq, hl0⟩
  refine ⟨g, l, rsiCell (.v g) (.v l), hg_eq, hl_eq,
    getElem?_zipWith' hg_eq hl_eq, hg0, hl0, ?_, ?_, ?_⟩
  · intro hl
    exact rsiCell_pos_loss hg0 hl
  · intro hl hg
    rw [hl]
    exact rsiCell_zero_loss_pos_gain hg
  · intro hl hg
    rw [hl, hg]
    exact rsiCell_zero_zero

/-- A flat six-candle close series (rsi_period + 1 candles, no movement). -/
def flatCloses : List ℚ := [100, 100, 100, 100, 100, 100]

/-- C8 counterexample: on a flat window of rsi_period+1 = 6 candles the
rolling average loss is exactly 0, yet the last-row RSI is NaN (0/0), not
100, and NaN is not a number in [0,100]. -/
theorem claim_C8_counterexample :
    flatCloses.length = indicatorDefaults.rsi_period + 1 ∧
    (avg_loss indicatorDefaults.rsi_period flatCloses)[5]? = some (PyFloat.v 0) ∧
    (rsi_column indicatorDefaults.rsi_period flatCloses)[5]? = some PyFloat.nan ∧
    PyFloat.nan ≠ PyFloat.v 100 := by
  have hrange : List.range 6 = [0, 1, 2, 3, 4, 5] := rfl
  have hls : loss_series flatCloses =
      [.v 0, .v 0, .v 0, .v 0, .v 0, .v 0] := by
    norm_num [loss_series, diffQ, flatCloses, PyFloat.lt, PyFloat.neg]
  have hgs : gain_series flatCloses =
      [.v 0, .v 0, .v 0, .v 0, .v 0, .v 0] := by
    norm_num [gain_series, diffQ, flatCloses, PyFloat.lt]
  have hroll : rollingMean 5 [PyFloat.v 0, .v 0, .v 0, .v 0, .v 0, .v 0] =
      [.nan, .nan, .nan, .nan, .v 0, .v 0] := by
    norm_num [rollingMean, hrange, meanPF, sumPF, PyFloat.add, PyFloat.div]
  have hal : avg_loss indicatorDefaults.rsi_period flatCloses =
      [.nan, .nan, .nan, .nan, .v 0, .v 0] := by
    rw [avg_loss, show indicatorDefaults.rsi_period = 5 from rfl, hls, hroll]
  have hag : avg_gain indicatorDefaults.rsi_period flatCloses =
      [.nan, .nan, .nan, .nan, .v 0, .v 0] := by
    rw [avg_gain, show indicatorDefaults.rsi_period = 5 from rfl, hgs, hroll]
  refine ⟨by decide, ?_, ?_, by simp⟩
  · rw [hal]; rfl
  · rw [rsi_column, hal, hag]
    norm_num [rsiCell, PyFloat.add, PyFloat.div, PyFloat.sub, PyFloat.neg]

/-- A strictly rising six-candle close series. -/
def risingCloses : List ℚ := [100, 101, 102, 103, 104, 105]

/-- C8 witness: the amended RSI bounds instantiated on a strictly rising
six-candle window with the default rsi_period of 5. -/
theorem claim_C8_witness :
    (0 < 5 ∧ 5 + 1 ≤ risingCloses.length) ∧
    (∃ g l r, (avg_gain 5 risingCloses)[risingCloses.length - 1]? = some (.v g) ∧
      (avg_loss 5 risingCloses)[risingCloses.length - 1]? = some (.v l) ∧
      (rsi_column 5 risingCloses)[risingCloses.length - 1]? = some r ∧
      0 ≤ g ∧ 0 ≤ l ∧
      (0 < l → ∃ q, r = .v q ∧ 0 ≤ q ∧ q ≤ 100) ∧
      (l = 0 → 0 < g → r = .v 100) ∧
      (l = 0 → g = 0 → r = PyFloat.nan)) :=
  ⟨⟨by decide, by decide⟩, claim_C8 5 risingCloses (by decide) (by decide)⟩

/-!  bfill lemmas and claim C4. -/

theorem bfill_length : ∀ l : List PyFloat, (bfill l).length = l.length
  | [] => rfl
  | x :: xs => by cases x <;> simp [bfill, bfill_length xs]

theorem bfill_getElem? : ∀ (l : List PyFloat) (i : ℕ), i < l.length →
    (bfill l)[i]? = some (nextVal (l.drop i))
  | [], i, h => by simp at h
  | x :: xs, 0, _ => by cases x <;> simp [bfill, nextVal]
  | x :: xs, i + 1, h => by
    have hi : i < xs.length := by simpa using h
    cases x <;>
      simp [bfill, List.getElem?_cons_succ, bfill_getElem? xs i hi,
        List.drop_succ_cons]

theorem rsi_column_length (period : ℕ) (closes : List ℚ) :
    (rsi_column period closes).length = closes.length := by
  simp [rsi_column, avg_gain, avg_loss, rollingMean_length,
    gain_series_length, loss_series_length]

/-- C4 amended: calculate_scalping_indicators never returns an
insufficient-data result; for every window (also one smaller than the
largest configured lookback) it returns a frame whose RSI column has one
entry per candle, and every entry equals the first non-missing raw RSI
value at or after its own index: leading missing values ARE filled
backward from later values (fillna bfill). -/
theorem claim_C4 (sqrtQ : ℚ → ℚ) (s : IndicatorSettings) (closes : List ℚ)
    (i : ℕ) (hi : i < closes.length) :
    (calculate_scalping_indicators sqrtQ s closes).RSI.length = closes.length ∧
    (calculate_scalping_indicators sqrtQ s closes).RSI[i]? =
      some (nextVal ((rsi_column s.rsi_period closes).drop i)) := by
  have hRSI : (calculate_scalping_indicators sqrtQ s closes).RSI =
      bfill (rsi_column s.rsi_period closes) := by
    simp [calculate_scalping_indicators]
  constructor
  · rw [hRSI, bfill_length, rsi_column_length]
  · rw [hRSI]
    exact bfill_getElem? _ i (by rw [rsi_column_length]; exact hi)

/-- A stand-in for the float square root inside the Bollinger std column;
no claim depends on its values. -/
def sqrtZero : ℚ → ℚ := fun _ => 0

/-- Eight rising closes: fewer candles than bb_period = 10 and than
macd_slow = 17, the largest configured lookbacks. -/
def closes8 : List ℚ := [100, 101, 102, 103, 104, 105, 106, 107]

/-- C4 counterexample: on an 8-candle window (smaller than the largest
configured lookback), the raw RSI at row 0 is missing (NaN), yet
calculate_scalping_indicators returns a numeric frame whose RSI at row 0
is 100 - a value backfilled from the later row 4 - instead of an
insufficient-data result. -/
theorem claim_C4_counterexample :
    closes8.length < indicatorDefaults.bb_period ∧
    closes8.length < indicatorDefaults.macd_slow ∧
    (rsi_column indicatorDefaults.rsi_period closes8)[0]? = some PyFloat.nan ∧
    (calculate_scalping_indicators sqrtZero indicatorDefaults closes8).RSI[0]? =
      some (PyFloat.v 100) := by
  have hrange : List.range 8 = [0, 1, 2, 3, 4, 5, 6, 7] := rfl
  have hgs : gain_series closes8 =
      [.v 0, .v 1, .v 1, .v 1, .v 1, .v 1, .v 1, .v 1] := by
    norm_num [gain_series, diffQ, closes8, PyFloat.lt]
  have hls : loss_series closes8 =
      [.v 0, .v 0, .v 0, .v 0, .v 0, .v 0, .v 0, .v 0] := by
    norm_num [loss_series, diffQ, closes8, PyFloat.lt, PyFloat.neg]
  have hrollg : rollingMean 5 [PyFloat.v 0, .v 1, .v 1, .v 1, .v 1, .v 1, .v 1, .v 1] =
      [.nan, .nan, .nan, .nan, .v (4/5), .v 1, .v 1, .v 1] := by
    norm_num [rollingMean, hrange, meanPF, sumPF, PyFloat.add, PyFloat.div]
  have hrolll : rollingMean 5 [PyFloat.v 0, .v 0, .v 0, .v 0, .v 0, .v 0, .v 0, .v 0] =
      [.nan, .nan, .nan, .nan, .v 0, .v 0, .v 0, .v 0] := by
    norm_num [rollingMean, hrange, meanPF, sumPF, PyFloat.add, PyFloat.div]
  have hag : avg_gain indicatorDefaults.rsi_period closes8 =
      [.nan, .nan, .nan, .nan, .v (4/5), .v 1, .v 1, .v 1] := by
    rw [avg_gain, show indicatorDefaults.rsi_period = 5 from rfl, hgs, hrollg]
  have hal : avg_loss indicatorDefaults.rsi_period closes8 =
      [.nan, .nan, .nan, .nan, .v 0, .v 0, .v 0, .v 0] := by
    rw [avg_loss, show indicatorDefaults.rsi_period = 5 from rfl, hls, hrolll]
  have hcol : rsi_column indicatorDefaults.rsi_period closes8 =
      [.nan, .nan, .nan, .nan, .v 100, .v 100, .v 100, .v 100] := by
    rw [rsi_column, hag, hal]
    norm_num [rsiCell, PyFloat.add, PyFloat.div, PyFloat.sub, PyFloat.neg]
  have hRSI : (calculate_scalping_indicators sqrtZero indicatorDefaults closes8).RSI =
      bfill (rsi_column indicatorDefaults.rsi_period closes8) := by
    simp [calculate_scalping_indicators]
  refine ⟨by decide, by decide, by rw [hcol]; rfl, ?_⟩
  rw [hRSI, hcol]
  rfl

/-- C4 witness: the backfill characterization instantiated at row 0 of the
8-candle window. -/
theorem claim_C4_witness :
    (0 < closes8.length) ∧
    ((calculate_scalping_indicators sqrtZero indicatorDefaults closes8).RSI.length =
      closes8.length ∧
    (calculate_scalping_indicators sqrtZero indicatorDefaults closes8).RSI[0]? =
      some (nextVal ((rsi_column indicatorDefaults.rsi_period closes8).drop 0))) :=
  ⟨by decide, claim_C4 sqrtZero indicatorDefaults closes8 0 (by decide)⟩

/-- C1 witness: the no-mutation result instantiated at a concrete state
and a concrete passing signal. -/
theorem claim_C1_witness :
    process_signals (fun _ => true) [("BTCUSDT", tradeEx)] [signalBuy] =
      ([("BTCUSDT", tradeEx)], []) ∧
    "calculate_position_size" ∉ riskManagerMethods :=
  claim_C1 (fun _ => true) [("BTCUSDT", tradeEx)] [signalBuy]

/-- C7 witness: the empty event trace instantiated at a concrete passing
signal. -/
theorem claim_C7_witness :
    process_signals_events (fun _ => true) [signalBuy] = [] ∧
    PipelineEvent.gateCheckSignal "BTCUSDT" ∉
      process_signals_events (fun _ => true) [signalBuy] ∧
    PipelineEvent.gateOrder "BTCUSDT" ∉
      process_signals_events (fun _ => true) [signalBuy] ∧
    PipelineEvent.orderPlaced "BTCUSDT" ∉
      process_signals_events (fun _ => true) [signalBuy] :=
  claim_C7 (fun _ => true) [signalBuy] "BTCUSDT"

/-- C3 witness: the unconditional-append behavior instantiated on the
empty window. -/
theorem claim_C3_witness :
    (update_realtime_data [] candleA).getLast? = some candleA ∧
    (update_realtime_data [] candleA).length =
      min (([] : List Candle).length + 1) 100 :=
  claim_C3 [] candleA
